import Mathlib

/-!
Shallow embedding of the x402-fullstack payment core (seller middleware +
facilitator verify/settle handlers) and proofs about it.

Modelling conventions:
* JavaScript `BigInt` amounts (decimal strings in the JSON wire format) are
  `Nat`; all amounts in the code are non-negative.
* A JSON field that may be `undefined` (or an empty string, which JavaScript
  truthiness treats the same way at every check site in this code) is an
  `Option`; `strVal` collapses `some ""` to `none` exactly where the source
  performs a truthiness test on a string.
* Remote interactions (RPC reads, on-chain writes, facilitator HTTP calls)
  are oracles passed in as function-valued structures, and every handler
  additionally returns the ordered list of remote calls it performed, so
  that "no chain I/O happened" is a provable statement.
* A JavaScript `TypeError` thrown by destructuring a missing nested object
  is caught by the handlers' `try/catch` and surfaced as the error message;
  the message text is abstracted as `destructureError`.
-/

namespace X402

/-- JavaScript string truthiness at the check sites of this code:
`undefined` and the empty string are falsy. -/
def strVal : Option String → Option String
  | some "" => none
  | v => v

/-- JavaScript number truthiness for the request chain id: `undefined` and
`0` are falsy, so both fall back to the default provider. -/
def numVal : Option Nat → Option Nat
  | some 0 => none
  | v => v

/-- Payment method tag (`'native' | 'eip3009' | 'erc20'` in the TS config). -/
inductive PaymentMethod where
  | native
  | erc20
  | eip3009
  deriving DecidableEq, Repr

/-- String tag of a payment method as it appears in JSON. -/
def PaymentMethod.tag : PaymentMethod → String
  | .native => "native"
  | .erc20 => "erc20"
  | .eip3009 => "eip3009"

/-- Token configuration (seller `TokenConfig` and the `token` object the
middleware sends to the facilitator share this shape). -/
structure Token where
  address : String
  symbol : String
  decimals : Nat
  paymentMethod : PaymentMethod
  pricePerQuery : Nat
  eip712Name : Option String
  eip712Version : Option String
  deriving DecidableEq, Repr

/-- Network data as sent to the facilitator (`{ chainId, caip2 }`). -/
structure Network where
  chainId : Nat
  caip2 : String
  deriving DecidableEq, Repr

/-- Seller-side network configuration (`NetworkConfig`): the fields the
middleware reads, with the symbol-to-token map as a function. -/
structure NetworkConfig where
  chainId : Nat
  caip2 : String
  rpcUrl : String
  tokens : String → Option Token

/-- Projection of a `NetworkConfig` to the wire form the middleware sends. -/
def networkWire (n : NetworkConfig) : Network :=
  { chainId := n.chainId, caip2 := n.caip2 }

/-- Token projection built by `verifyAndSettle` for the facilitator body:
the EIP-712 fields are only spread in when `token.eip712Name` is truthy. -/
def tokenWire (t : Token) : Token :=
  { t with
    eip712Name := strVal t.eip712Name
    eip712Version := if (strVal t.eip712Name).isSome then t.eip712Version else none }

/-- Result of a facilitator verify handler: `{ valid, reason? }`. -/
structure VerifyResult where
  valid : Bool
  reason : Option String
  deriving DecidableEq, Repr

/-- Result of a facilitator settle handler:
`{ success, transaction?, payer?, error? }`. -/
structure SettleResult where
  success : Bool
  transaction : Option String
  payer : Option String
  error : Option String
  deriving DecidableEq, Repr

/-- Transaction receipt as read by the handlers; `status` is the ethers
receipt status (`number | null`). -/
structure Receipt where
  status : Option Nat
  deriving DecidableEq, Repr

/-- Full transaction data as read by `verifyNative`. -/
structure TxData where
  value : Nat
  from_ : String
  deriving DecidableEq, Repr

/-- EIP-3009 authorization struct
`{ from, to, value, validAfter, validBefore, nonce }`. -/
structure Authorization where
  from_ : String
  to_ : String
  value : Nat
  validAfter : Nat
  validBefore : Nat
  nonce : String
  deriving DecidableEq, Repr

/-- EIP-712 domain built by `verifyEip3009`. -/
structure Eip712Domain where
  name : Option String
  version : Option String
  chainId : Nat
  verifyingContract : String
  deriving DecidableEq, Repr

/-- One remote blockchain interaction performed by a handler. -/
inductive RpcCall where
  | getTransactionReceipt (txHash : String)
  | getTransaction (txHash : String)
  | allowance (tokenAddr owner spender : String)
  | balanceOf (tokenAddr owner : String)
  | payWithTokenFrom (contractAddr tokenAddr from_ : String) (amount : Nat) (invoice : String)
  | transferWithAuthorization (tokenAddr : String) (auth : Authorization) (signature : String)
  deriving DecidableEq, Repr

/-- Oracle for all chain interactions: RPC reads return data, on-chain
writes return either a revert/RPC error message or a confirmed tx hash. -/
structure Chain where
  receiptOf : String → Option Receipt
  transactionOf : String → Option TxData
  allowanceOf : String → String → String → Nat
  balanceOf : String → String → Nat
  sendPayWithTokenFrom : String → String → String → Nat → String → Except String String
  sendTransferWithAuthorization : String → Authorization → String → Except String String

/-- Message of the JavaScript `TypeError` raised when destructuring a
missing nested object; the handlers catch it and return it as the reason. -/
def destructureError : String := "Cannot destructure nested payload"

/-- JavaScript `String.prototype.toLowerCase` on the addresses and hashes
this code compares (character-wise lowering). -/
def toLowerCase (s : String) : String :=
  String.mk (s.data.map Char.toLower)

/-! Native scheme handler (facilitator `handlers/native.ts`). -/

/-- Inner payload of a native proof: `{ txHash, from, amount }`. -/
structure NativePayload where
  txHash : Option String
  from_ : Option String
  amount : Option Nat
  deriving DecidableEq, Repr

/-- Native payment proof `{ x402Version, payload }`. -/
structure NativeProof where
  x402Version : Int
  payload : Option NativePayload
  deriving DecidableEq, Repr

/-- Request body of the native verify/settle endpoints. -/
structure NativeBody where
  payload : Option NativeProof
  token : Token
  treasury : String
  deriving DecidableEq, Repr

/-- Facilitator `verifyNative`: receipt must exist and be successful, the
transaction value must cover the claimed amount (falling back to the
configured price only when the claim is absent), and a declared sender
must match case-insensitively. -/
def verifyNative (body : NativeBody) (chain : Chain) : VerifyResult × List RpcCall :=
  match body.payload with
  | none => (⟨false, some destructureError⟩, [])
  | some proof =>
    if proof.x402Version ≠ 2 then (⟨false, some "Unsupported x402 version"⟩, [])
    else
      match proof.payload with
      | none => (⟨false, some destructureError⟩, [])
      | some p =>
        match strVal p.txHash with
        | none => (⟨false, some "Missing txHash"⟩, [])
        | some txHash =>
          match chain.receiptOf txHash with
          | none => (⟨false, some "Transaction not found"⟩, [.getTransactionReceipt txHash])
          | some receipt =>
            if receipt.status ≠ some 1 then
              (⟨false, some "Transaction failed"⟩, [.getTransactionReceipt txHash])
            else
              match chain.transactionOf txHash with
              | none =>
                (⟨false, some "Transaction data not found"⟩,
                  [.getTransactionReceipt txHash, .getTransaction txHash])
              | some tx =>
                if tx.value < p.amount.getD body.token.pricePerQuery then
                  (⟨false, some "Insufficient CFX amount"⟩,
                    [.getTransactionReceipt txHash, .getTransaction txHash])
                else
                  match strVal p.from_ with
                  | some f =>
                    if toLowerCase tx.from_ ≠ toLowerCase f then
                      (⟨false, some "Sender mismatch"⟩,
                        [.getTransactionReceipt txHash, .getTransaction txHash])
                    else
                      (⟨true, none⟩, [.getTransactionReceipt txHash, .getTransaction txHash])
                  | none =>
                    (⟨true, none⟩, [.getTransactionReceipt txHash, .getTransaction txHash])

/-- Facilitator `settleNative`: pure echo of `{ txHash, from }` out of the
nested payload; no chain interaction and no validation of its own. -/
def settleNative (body : NativeBody) : SettleResult × List RpcCall :=
  match body.payload with
  | none => (⟨false, none, none, some destructureError⟩, [])
  | some proof =>
    match proof.payload with
    | none => (⟨false, none, none, some destructureError⟩, [])
    | some p => (⟨true, p.txHash, p.from_, none⟩, [])

/-! ERC-20 scheme handler (facilitator `handlers/erc20.ts`). -/

/-- Inner payload of an ERC-20 proof: `{ from, amount, approveTxHash }`. -/
structure Erc20Payload where
  from_ : Option String
  amount : Option Nat
  approveTxHash : Option String
  invoiceId : Option String
  deriving DecidableEq, Repr

/-- ERC-20 payment proof `{ x402Version, payload }`. -/
structure Erc20Proof where
  x402Version : Int
  payload : Option Erc20Payload
  deriving DecidableEq, Repr

/-- Request body of the ERC-20 verify/settle endpoints. -/
structure Erc20Body where
  payload : Option Erc20Proof
  token : Token
  treasury : String
  paymentContract : Option String
  deriving DecidableEq, Repr

/-- Tail of `verifyErc20` after the approve-receipt gate: allowance toward
the payment-contract spender, balance of the sender, and the configured
minimum price, each a hard gate; `calls` is the trace so far. -/
def erc20AllowanceChecks (body : Erc20Body) (chain : Chain) (f : String) (amount : Nat)
    (calls : List RpcCall) : VerifyResult × List RpcCall :=
  match strVal body.paymentContract with
  | none => (⟨false, some "Payment contract not configured"⟩, calls)
  | some spender =>
    let a := chain.allowanceOf body.token.address f spender
    let calls := calls ++ [.allowance body.token.address f spender]
    if a < amount then
      (⟨false, some s!"Insufficient allowance: {a} < {amount}"⟩, calls)
    else
      let b := chain.balanceOf body.token.address f
      let calls := calls ++ [.balanceOf body.token.address f]
      if b < amount then (⟨false, some "Insufficient balance"⟩, calls)
      else if amount < body.token.pricePerQuery then
        (⟨false, some "Insufficient amount"⟩, calls)
      else (⟨true, none⟩, calls)

/-- Facilitator `verifyErc20`: optional approve-receipt check, then
on-chain allowance toward the payment contract and balance of the sender,
then the configured minimum price — each a hard gate. -/
def verifyErc20 (body : Erc20Body) (chain : Chain) : VerifyResult × List RpcCall :=
  match body.payload with
  | none => (⟨false, some destructureError⟩, [])
  | some proof =>
    if proof.x402Version ≠ 2 then (⟨false, some "Unsupported x402 version"⟩, [])
    else
      match proof.payload with
      | none => (⟨false, some destructureError⟩, [])
      | some p =>
        match strVal p.from_, p.amount with
        | none, _ => (⟨false, some "Missing from or amount"⟩, [])
        | _, none => (⟨false, some "Missing from or amount"⟩, [])
        | some f, some amount =>
          match strVal p.approveTxHash with
          | some h =>
            match chain.receiptOf h with
            | none =>
              (⟨false, some "Approve transaction not confirmed"⟩, [.getTransactionReceipt h])
            | some r =>
              if r.status ≠ some 1 then
                (⟨false, some "Approve transaction not confirmed"⟩, [.getTransactionReceipt h])
              else erc20AllowanceChecks body chain f amount [.getTransactionReceipt h]
          | none => erc20AllowanceChecks body chain f amount []

/-- Bytes32 invoice identifier built by `settleErc20`: the invoice id
truncated to 31 characters, defaulting to `"x402"` when absent or empty
(the byte-level zero padding of `ethers.zeroPadValue` is not modelled). -/
def invoiceKey (invoiceId : Option String) : String :=
  match strVal (invoiceId.map (fun s => String.mk (s.data.take 31))) with
  | none => "x402"
  | some s => s

/-- Facilitator `settleErc20`: calls `payWithTokenFrom` on the payment
receiver contract with the relayer wallet and reports the confirmed hash. -/
def settleErc20 (body : Erc20Body) (chain : Chain) : SettleResult × List RpcCall :=
  match body.payload with
  | none => (⟨false, none, none, some destructureError⟩, [])
  | some proof =>
    match proof.payload with
    | none => (⟨false, none, none, some destructureError⟩, [])
    | some p =>
      match strVal body.paymentContract with
      | none => (⟨false, none, none, some "Payment contract not configured"⟩, [])
      | some contractAddr =>
        let f := p.from_.getD ""
        let amount := p.amount.getD 0
        let invoice := invoiceKey p.invoiceId
        let call := RpcCall.payWithTokenFrom contractAddr body.token.address f amount invoice
        match chain.sendPayWithTokenFrom contractAddr body.token.address f amount invoice with
        | .error e => (⟨false, none, none, some e⟩, [call])
        | .ok txHash => (⟨true, some txHash, p.from_, none⟩, [call])

/-! EIP-3009 scheme handler (facilitator `handlers/eip3009.ts`). -/

/-- Inner payload of an EIP-3009 proof: `{ signature, authorization }`
(a missing `authorization` is folded into the missing-payload case). -/
structure Eip3009Payload where
  signature : String
  authorization : Authorization
  deriving DecidableEq, Repr

/-- EIP-3009 payment proof `{ x402Version, network, payload }`. -/
structure Eip3009Proof where
  x402Version : Int
  network : String
  payload : Option Eip3009Payload
  deriving DecidableEq, Repr

/-- Request body of the EIP-3009 verify/settle endpoints. -/
structure Eip3009Body where
  payload : Option Eip3009Proof
  token : Token
  network : Network
  treasury : String
  deriving DecidableEq, Repr

/-- EIP-712 domain that `verifyEip3009` builds from the token and network. -/
def eip712DomainOf (token : Token) (network : Network) : Eip712Domain :=
  { name := token.eip712Name
    version := token.eip712Version
    chainId := network.chainId
    verifyingContract := token.address }

/-- Facilitator `verifyEip3009`: version, network, EIP-712 signature
recovery (the elliptic-curve recovery `ethers.verifyTypedData` is the
oracle `recover`), destination, balance, time window, minimum price —
each a hard gate with a specific reason. -/
def verifyEip3009 (body : Eip3009Body) (chain : Chain)
    (recover : Eip712Domain → Authorization → String → String) (now : Nat) :
    VerifyResult × List RpcCall :=
  match body.payload with
  | none => (⟨false, some destructureError⟩, [])
  | some proof =>
    if proof.x402Version ≠ 2 then (⟨false, some "Unsupported x402 version"⟩, [])
    else if proof.network ≠ body.network.caip2 then
      let pn := proof.network
      (⟨false, some s!"Wrong network: {pn}"⟩, [])
    else
      match proof.payload with
      | none => (⟨false, some destructureError⟩, [])
      | some p =>
        let auth := p.authorization
        let recovered := recover (eip712DomainOf body.token body.network) auth p.signature
        if toLowerCase recovered ≠ toLowerCase auth.from_ then (⟨false, some "Invalid signature"⟩, [])
        else if toLowerCase auth.to_ ≠ toLowerCase body.treasury then
          (⟨false, some "Wrong payment destination"⟩, [])
        else
          let balance := chain.balanceOf body.token.address auth.from_
          let calls := [RpcCall.balanceOf body.token.address auth.from_]
          if balance < auth.value then (⟨false, some "Insufficient balance"⟩, calls)
          else if now < auth.validAfter ∨ now > auth.validBefore then
            (⟨false, some "Authorization expired or not yet valid"⟩, calls)
          else if auth.value < body.token.pricePerQuery then
            (⟨false, some "Insufficient amount"⟩, calls)
          else (⟨true, none⟩, calls)

/-- Facilitator `settleEip3009`: calls `transferWithAuthorization` on the
token contract with the relayer wallet and reports the confirmed hash. -/
def settleEip3009 (body : Eip3009Body) (chain : Chain) : SettleResult × List RpcCall :=
  match body.payload with
  | none => (⟨false, none, none, some destructureError⟩, [])
  | some proof =>
    match proof.payload with
    | none => (⟨false, none, none, some destructureError⟩, [])
    | some p =>
      let call := RpcCall.transferWithAuthorization body.token.address p.authorization p.signature
      match chain.sendTransferWithAuthorization body.token.address p.authorization p.signature with
      | .error e => (⟨false, none, none, some e⟩, [call])
      | .ok txHash => (⟨true, some txHash, some p.authorization.from_, none⟩, [call])

/-! Facilitator HTTP dispatcher (`facilitator/src/index.ts`). -/

/-- Chain ids of the configured `NETWORKS` map (testnet 71, mainnet 1030);
`getProviderForChain` throws for any other chain id. -/
def networkChainIds : List Nat := [71, 1030]

/-- Facilitator runtime configuration fields read by the dispatcher. -/
structure FacConfig where
  apiKey : String
  defaultChainId : Nat
  deriving DecidableEq, Repr

/-- One successfully parsed JSON request body, viewed through the schema of
each handler (the handlers each read their own fields of the same
document); `networkChainId` is `body?.network?.chainId`. -/
structure ParsedBody where
  networkChainId : Option Nat
  asNative : NativeBody
  asErc20 : Erc20Body
  asEip3009 : Eip3009Body

/-- Inbound HTTP request to the facilitator; `body = none` means reading
or JSON-parsing the (size-capped) body fails if attempted. -/
structure FacRequest where
  method : String
  path : String
  apiKey : Option String
  body : Option ParsedBody

/-- Response body forms the dispatcher can produce. -/
inductive RespBody where
  | empty
  | health
  | errorMsg (msg : String)
  | verifyOut (r : VerifyResult)
  | settleOut (r : SettleResult)
  deriving Repr

/-- HTTP response: status code plus body form. -/
structure HttpResponse where
  status : Nat
  body : RespBody
  deriving Repr

/-- Observable processing step of the dispatcher, in order: reading and
JSON-parsing the request body, or running a named handler. -/
inductive Ev where
  | bodyParsed
  | handlerRun (name : String)
  deriving DecidableEq, Repr

/-- Route matching of `handleRequest` in source order once auth, body parse
and chain resolution have passed; verify endpoints always answer 200,
settle endpoints map success to 200 and failure to 500. -/
def dispatchScheme (chain : Chain)
    (recover : Eip712Domain → Authorization → String → String) (now : Nat)
    (req : FacRequest) (body : ParsedBody) : HttpResponse × List Ev :=
  if req.path = "/x402/verify-eip3009" ∧ req.method = "POST" then
    let r := (verifyEip3009 body.asEip3009 chain recover now).1
    (⟨200, .verifyOut r⟩, [.bodyParsed, .handlerRun "verifyEip3009"])
  else if req.path = "/x402/settle-eip3009" ∧ req.method = "POST" then
    let r := (settleEip3009 body.asEip3009 chain).1
    (⟨if r.success then 200 else 500, .settleOut r⟩, [.bodyParsed, .handlerRun "settleEip3009"])
  else if req.path = "/x402/verify-erc20" ∧ req.method = "POST" then
    let r := (verifyErc20 body.asErc20 chain).1
    (⟨200, .verifyOut r⟩, [.bodyParsed, .handlerRun "verifyErc20"])
  else if req.path = "/x402/settle-erc20" ∧ req.method = "POST" then
    let r := (settleErc20 body.asErc20 chain).1
    (⟨if r.success then 200 else 500, .settleOut r⟩, [.bodyParsed, .handlerRun "settleErc20"])
  else if req.path = "/x402/verify-native" ∧ req.method = "POST" then
    let r := (verifyNative body.asNative chain).1
    (⟨200, .verifyOut r⟩, [.bodyParsed, .handlerRun "verifyNative"])
  else if req.path = "/x402/settle-native" ∧ req.method = "POST" then
    let r := (settleNative body.asNative).1
    (⟨if r.success then 200 else 500, .settleOut r⟩, [.bodyParsed, .handlerRun "settleNative"])
  else (⟨404, .errorMsg "Not found"⟩, [.bodyParsed])

/-- Facilitator `handleRequest`: OPTIONS preflight, unauthenticated health
endpoint, exact-match API-key gate, body parse, chain resolution, then
routing to the six scheme endpoints. -/
def handleRequest (cfg : FacConfig) (chain : Chain)
    (recover : Eip712Domain → Authorization → String → String) (now : Nat)
    (req : FacRequest) : HttpResponse × List Ev :=
  if req.method = "OPTIONS" then (⟨200, .empty⟩, [])
  else if req.path = "/x402/health" ∧ req.method = "GET" then
    (⟨200, .health⟩, [.handlerRun "health"])
  else if req.apiKey ≠ some cfg.apiKey then
    (⟨401, .errorMsg "Invalid API key"⟩, [])
  else
    match req.body with
    | none => (⟨400, .errorMsg "Invalid request body"⟩, [.bodyParsed])
    | some body =>
      match numVal body.networkChainId with
      | some cid =>
        if cid ∉ networkChainIds then
          (⟨400, .errorMsg s!"Unsupported chain: {cid}"⟩, [.bodyParsed])
        else dispatchScheme chain recover now req body
      | none => dispatchScheme chain recover now req body

/-! Seller middleware (`seller/src/middleware/x402.ts`). -/

/-- JSON value, as produced by building and stringifying the JS objects of
the middleware (amount strings stay strings, counts stay numbers). -/
inductive Json where
  | str (s : String)
  | num (n : Nat)
  | obj (fields : List (String × Json))
  | arr (elems : List Json)

/-- Top-level keys of a JSON object, in construction order. -/
def jsonKeys : Json → List String
  | .obj fields => fields.map Prod.fst
  | _ => []

/-- Field lookup in a JSON object. -/
def jsonLookup (j : Json) (key : String) : Option Json :=
  match j with
  | .obj fields => fields.lookup key
  | _ => none

/-- Left-pads a string with `'0'` to the given length (`String.padStart`). -/
def padStartZero (s : String) (n : Nat) : String :=
  String.mk (List.replicate (n - s.length) '0') ++ s

/-- Drops trailing `'0'` characters (`.replace(/0+$/, '')`). -/
def dropTrailingZeros (s : String) : String :=
  String.mk (s.data.reverse.dropWhile (· = '0')).reverse

/-- Seller `formatAmount`: human-readable token amount with the decimal
point placed per `token.decimals` and trailing zeros stripped. -/
def formatAmount (amount : Nat) (token : Token) : String :=
  let divisor := 10 ^ token.decimals
  let whole := amount / divisor
  let frac := amount % divisor
  let fracStr := dropTrailingZeros (padStartZero (toString frac) token.decimals)
  if fracStr ≠ "" then s!"{whole}.{fracStr}" else s!"{whole}"

/-- Everything before the first `'?'` of a URL (`url.split('?')[0]`). -/
def stripQuery (url : String) : String :=
  String.mk (url.data.takeWhile (· ≠ '?'))

/-- PaymentRequired envelope built by `send402` and carried base64-encoded
in the `PAYMENT-REQUIRED` response header. -/
def send402Envelope (resourceUrl : String) (network : NetworkConfig) (token : Token)
    (treasury paymentContract : String) : Json :=
  let amt := formatAmount token.pricePerQuery token
  let sym := token.symbol
  .obj [
    ("x402Version", .num 2),
    ("error", .str "PAYMENT-SIGNATURE header is required"),
    ("resource", .obj [
      ("url", .str resourceUrl),
      ("description", .str s!"API query — {amt} {sym} per request"),
      ("mimeType", .str "application/json")]),
    ("accepts", .arr [.obj ([
      ("scheme", .str "exact"),
      ("network", .str network.caip2),
      ("amount", .str (toString token.pricePerQuery)),
      ("asset", .str token.address),
      ("payTo", .str treasury),
      ("maxTimeoutSeconds", .num 3600),
      ("extra", .obj (
        [("paymentMethod", .str token.paymentMethod.tag),
         ("symbol", .str token.symbol),
         ("decimals", .num token.decimals)]
        ++ (match strVal token.eip712Name with
            | some n =>
              ("name", Json.str n) ::
                (match token.eip712Version with
                 | some v => [("version", Json.str v)]
                 | none => [])
            | none => [])
        ++ [("paymentContract", .str paymentContract)]))])])]

/-- Seller `SettlementResult` (`seller/src/types.ts`). -/
structure SettlementResult where
  success : Bool
  transaction : Option String
  payer : Option String
  error : Option String
  deriving DecidableEq, Repr

/-- Verify/settle endpoint pair for one payment method (the `routes`
table in `verifyAndSettle`). -/
structure SchemeRoutes where
  verify : String
  settle : String
  deriving DecidableEq, Repr

/-- The `routes` table of `verifyAndSettle`. -/
def schemeRoutes : PaymentMethod → SchemeRoutes
  | .eip3009 => ⟨"/x402/verify-eip3009", "/x402/settle-eip3009"⟩
  | .erc20 => ⟨"/x402/verify-erc20", "/x402/settle-erc20"⟩
  | .native => ⟨"/x402/verify-native", "/x402/settle-native"⟩

/-- Request body `verifyAndSettle` sends to a facilitator endpoint. -/
structure FacReqData where
  payload : Json
  token : Token
  network : Network
  treasury : String
  paymentContract : String

/-- Builder of the facilitator request body; `verifyAndSettle` builds the
same data for its verify call and its settle call. -/
def facReqData (payload : Json) (network : NetworkConfig) (token : Token)
    (treasury paymentContract : String) : FacReqData :=
  { payload := payload
    token := tokenWire token
    network := networkWire network
    treasury := treasury
    paymentContract := paymentContract }

/-- One outbound HTTP POST from the middleware to the facilitator. -/
inductive FacCall where
  | post (endpoint : String) (data : FacReqData)

/-- Endpoint of a facilitator call. -/
def FacCall.endpoint : FacCall → String
  | .post e _ => e

/-- Settle endpoints of the facilitator. -/
def settleEndpoints : List String :=
  ["/x402/settle-eip3009", "/x402/settle-erc20", "/x402/settle-native"]

/-- Whether a facilitator call posts to a settle endpoint. -/
def isSettlePost (c : FacCall) : Bool :=
  settleEndpoints.contains c.endpoint

/-- Oracle for the facilitator's answers to the middleware's POSTs; `none`
models a network error or timeout (`callFacilitator` returning `null`). -/
structure Facilitator where
  verifyResp : String → FacReqData → Option VerifyResult
  settleResp : String → FacReqData → Option SettleResult

/-- Seller `verifyAndSettle`: base64/JSON-decode the `PAYMENT-SIGNATURE`
header (the decoder is the oracle `decode`), verify with the facilitator,
and settle only after a `valid: true` answer; any failure short-circuits
with `success: false`. Returns the result and the ordered facilitator
calls. -/
def verifyAndSettle (decode : String → Option Json) (fac : Facilitator)
    (paymentHeader : String) (network : NetworkConfig) (token : Token)
    (treasury paymentContract : String) : SettlementResult × List FacCall :=
  match decode paymentHeader with
  | none => (⟨false, none, none, some "Invalid PAYMENT-SIGNATURE header"⟩, [])
  | some payload =>
    let route := schemeRoutes token.paymentMethod
    let data := facReqData payload network token treasury paymentContract
    let verifyCall := FacCall.post route.verify data
    match fac.verifyResp route.verify data with
    | none => (⟨false, none, none, some "Verification failed"⟩, [verifyCall])
    | some vr =>
      if vr.valid = false then
        (⟨false, none, none, some ((strVal vr.reason).getD "Verification failed")⟩, [verifyCall])
      else
        let settleCall := FacCall.post route.settle data
        match fac.settleResp route.settle data with
        | none => (⟨false, none, none, some "Settlement failed"⟩, [verifyCall, settleCall])
        | some sr =>
          if sr.success = false then
            (⟨false, none, none, some ((strVal sr.error).getD "Settlement failed")⟩,
              [verifyCall, settleCall])
          else (⟨true, sr.transaction, sr.payer, none⟩, [verifyCall, settleCall])

/-- Seller environment fields read by the middleware. -/
structure MwEnv where
  network : String
  treasury : String
  paymentContractTestnet : String
  paymentContractMainnet : String
  demoKey : Option String

/-- Gated HTTP request as seen by the middleware. -/
structure MwRequest where
  url : String
  queryNetwork : Option String
  queryToken : Option String
  queryDemo : Option String
  paymentHeader : Option String

/-- Response body forms of the middleware. -/
inductive MwBody where
  | content
  | paymentRequired
  | unsupportedToken (symbol : String)
  | paymentFailed (msg : Option String)
  | demoFailed (msg : Option String)
  deriving Repr

/-- Outcome of one run of the middleware on a gated request: response
status and body form, the settlement attached to the request context (if
any), the facilitator calls performed, and the 402 challenge envelope
(when one was issued). -/
structure MwOutcome where
  status : Nat
  body : MwBody
  attached : Option SettlementResult
  facCalls : List FacCall
  challenge : Option Json

/-- Seller `getDefaultToken`: prefer USDT0 when the network has it, else
the native coin CFX. -/
def getDefaultToken (network : NetworkConfig) : String :=
  if (network.tokens "USDT0").isSome then "USDT0" else "CFX"

/-- Seller middleware `x402` on one gated request. Oracles: `getNetwork`
(the network config table), `decode` (base64/JSON decoding of the payment
header), `fac` (facilitator answers), and the results of the testnet demo
auto-pay paths (`demoPayNative` / `demoPayErc20`, which sign with the
server's own key). A 200 status stands for running the downstream
handler (`await next()`). -/
def x402Run (env : MwEnv) (getNetwork : String → NetworkConfig)
    (tokenSymbol : Option String) (decode : String → Option Json) (fac : Facilitator)
    (demoNativeResult demoErc20Result : SettlementResult) (req : MwRequest) : MwOutcome :=
  let networkName := (strVal req.queryNetwork).getD env.network
  let network := getNetwork networkName
  let symbol := ((strVal tokenSymbol).orElse fun _ => strVal req.queryToken).getD
    (getDefaultToken network)
  match network.tokens symbol with
  | none => ⟨400, .unsupportedToken symbol, none, [], none⟩
  | some token =>
    let paymentContract :=
      if networkName = "testnet" then env.paymentContractTestnet else env.paymentContractMainnet
    let isDemo := req.queryDemo = some "1"
    match strVal req.paymentHeader with
    | none =>
      if isDemo ∧ networkName = "testnet" ∧ (strVal env.demoKey).isSome
          ∧ (token.paymentMethod = .native ∨ token.paymentMethod = .erc20) then
        let demoResult :=
          if token.paymentMethod = .native then demoNativeResult else demoErc20Result
        if demoResult.success then ⟨200, .content, some demoResult, [], none⟩
        else ⟨500, .demoFailed demoResult.error, none, [], none⟩
      else
        ⟨402, .paymentRequired, none, [],
          some (send402Envelope (stripQuery req.url) network token env.treasury paymentContract)⟩
    | some header =>
      let (settlement, calls) :=
        verifyAndSettle decode fac header network token env.treasury paymentContract
      if settlement.success = false then
        ⟨402, .paymentFailed settlement.error, none, calls, none⟩
      else ⟨200, .content, some settlement, calls, none⟩

/-! Characterizations of the three verify handlers. -/

/-- Characterization of `verifyNative` acceptance: exactly the runs where
every gate passes. -/
theorem verifyNative_valid_iff (body : NativeBody) (chain : Chain) :
    (verifyNative body chain).1.valid = true ↔
      ∃ proof p h receipt tx, body.payload = some proof ∧ proof.x402Version = 2 ∧
        proof.payload = some p ∧ strVal p.txHash = some h ∧
        chain.receiptOf h = some receipt ∧ receipt.status = some 1 ∧
        chain.transactionOf h = some tx ∧
        p.amount.getD body.token.pricePerQuery ≤ tx.value ∧
        (strVal p.from_ = none ∨ ∃ f, strVal p.from_ = some f ∧ toLowerCase tx.from_ = toLowerCase f) := by
  unfold verifyNative
  rcases hb : body.payload with _ | proof
  · simp [hb]
  by_cases hver : proof.x402Version = 2
  · rcases hp : proof.payload with _ | p
    · simp [hb, hver, hp]
    rcases hh : strVal p.txHash with _ | h
    · simp [hb, hver, hp, hh]
    rcases hr : chain.receiptOf h with _ | receipt
    · simp [hb, hver, hp, hh, hr]
    by_cases hs : receipt.status = some 1
    · rcases ht : chain.transactionOf h with _ | tx
      · simp [hb, hver, hp, hh, hr, hs, ht]
      by_cases hval : tx.value < p.amount.getD body.token.pricePerQuery
      · simp [hb, hver, hp, hh, hr, hs, ht, hval]
      · rcases hf : strVal p.from_ with _ | f
        · simp [hb, hver, hp, hh, hr, hs, ht, hval, hf]
          omega
        · by_cases hm : toLowerCase tx.from_ = toLowerCase f
          · simp [hb, hver, hp, hh, hr, hs, ht, hval, hf, hm]
            omega
          · simp [hb, hver, hp, hh, hr, hs, ht, hval, hf, hm]
    · simp [hb, hver, hp, hh, hr, hs]
  · simp [hb, hver]

/-- Characterization of `erc20AllowanceChecks` acceptance. -/
theorem erc20AllowanceChecks_valid_iff (body : Erc20Body) (chain : Chain) (f : String)
    (amount : Nat) (calls : List RpcCall) :
    (erc20AllowanceChecks body chain f amount calls).1.valid = true ↔
      ∃ spender, strVal body.paymentContract = some spender ∧
        amount ≤ chain.allowanceOf body.token.address f spender ∧
        amount ≤ chain.balanceOf body.token.address f ∧
        body.token.pricePerQuery ≤ amount := by
  unfold erc20AllowanceChecks
  rcases hpc : strVal body.paymentContract with _ | spender
  · simp [hpc]
  by_cases hal : chain.allowanceOf body.token.address f spender < amount
  · simp [hpc, hal]
  · by_cases hbal : chain.balanceOf body.token.address f < amount
    · simp [hpc, hal, hbal]
    · by_cases hpr : amount < body.token.pricePerQuery
      · simp [hpc, hal, hbal, hpr]
      · simp [hpc, hal, hbal, hpr]
        omega

/-- Characterization of `verifyErc20` acceptance: exactly the runs where
every gate passes. -/
theorem verifyErc20_valid_iff (body : Erc20Body) (chain : Chain) :
    (verifyErc20 body chain).1.valid = true ↔
      ∃ proof p f a spender, body.payload = some proof ∧ proof.x402Version = 2 ∧
        proof.payload = some p ∧ strVal p.from_ = some f ∧ p.amount = some a ∧
        (strVal p.approveTxHash = none ∨
          ∃ ah r, strVal p.approveTxHash = some ah ∧ chain.receiptOf ah = some r ∧
            r.status = some 1) ∧
        strVal body.paymentContract = some spender ∧
        a ≤ chain.allowanceOf body.token.address f spender ∧
        a ≤ chain.balanceOf body.token.address f ∧
        body.token.pricePerQuery ≤ a := by
  unfold verifyErc20
  rcases hb : body.payload with _ | proof
  · simp [hb]
  by_cases hver : proof.x402Version = 2
  · rcases hp : proof.payload with _ | p
    · simp [hb, hver, hp]
    rcases hf : strVal p.from_ with _ | f
    · simp [hb, hver, hp, hf]
    rcases ha : p.amount with _ | a
    · simp [hb, hver, hp, hf, ha]
    rcases happ : strVal p.approveTxHash with _ | ah
    · simp [hb, hver, hp, hf, ha, happ, erc20AllowanceChecks_valid_iff]
    · rcases hrec : chain.receiptOf ah with _ | r
      · simp [hb, hver, hp, hf, ha, happ, hrec]
      · by_cases hst : r.status = some 1
        · simp [hb, hver, hp, hf, ha, happ, hrec, hst, erc20AllowanceChecks_valid_iff]
        · simp [hb, hver, hp, hf, ha, happ, hrec, hst]
  · simp [hb, hver]

/-- Characterization of `verifyEip3009` acceptance: exactly the runs where
every gate passes; in particular the time window is inclusive at both
ends. -/
theorem verifyEip3009_valid_iff (body : Eip3009Body) (chain : Chain)
    (recover : Eip712Domain → Authorization → String → String) (now : Nat) :
    (verifyEip3009 body chain recover now).1.valid = true ↔
      ∃ proof p, body.payload = some proof ∧ proof.x402Version = 2 ∧
        proof.network = body.network.caip2 ∧ proof.payload = some p ∧
        toLowerCase (recover (eip712DomainOf body.token body.network) p.authorization
            p.signature) = toLowerCase p.authorization.from_ ∧
        toLowerCase p.authorization.to_ = toLowerCase body.treasury ∧
        p.authorization.value ≤ chain.balanceOf body.token.address p.authorization.from_ ∧
        p.authorization.validAfter ≤ now ∧ now ≤ p.authorization.validBefore ∧
        body.token.pricePerQuery ≤ p.authorization.value := by
  unfold verifyEip3009
  rcases hb : body.payload with _ | proof
  · simp [hb]
  by_cases hver : proof.x402Version = 2
  · by_cases hnet : proof.network = body.network.caip2
    · rcases hp : proof.payload with _ | p
      · simp [hb, hver, hnet, hp]
      by_cases hsig : toLowerCase (recover (eip712DomainOf body.token body.network) p.authorization
          p.signature) = toLowerCase p.authorization.from_
      · by_cases hdest : toLowerCase p.authorization.to_ = toLowerCase body.treasury
        · by_cases hbal :
            chain.balanceOf body.token.address p.authorization.from_ < p.authorization.value
          · simp [hb, hver, hnet, hp, hsig, hdest, hbal]
          · by_cases hwin : now < p.authorization.validAfter ∨ now > p.authorization.validBefore
            · simp [hb, hver, hnet, hp, hsig, hdest, hbal, hwin]
              omega
            · by_cases hpr : p.authorization.value < body.token.pricePerQuery
              · simp [hb, hver, hnet, hp, hsig, hdest, hbal, hwin, hpr]
              · simp [hb, hver, hnet, hp, hsig, hdest, hbal, hwin, hpr]
                omega
        · simp [hb, hver, hnet, hp, hsig, hdest]
      · simp [hb, hver, hnet, hp, hsig]
    · simp [hb, hver, hnet]
  · simp [hb, hver]

/-! Concrete fixtures used by witnesses and counterexamples. -/

/-- Native CFX token with a configured minimum price of 1000. -/
def cfxToken : Token :=
  { address := "0x0000000000000000000000000000000000000000", symbol := "CFX", decimals := 18,
    paymentMethod := .native, pricePerQuery := 1000, eip712Name := none, eip712Version := none }

/-- ERC-20 test token with a configured minimum price of 1000. -/
def usdtToken : Token :=
  { address := "0x7d682e65efc5c13bf4e394b8f376c48e6bae0355", symbol := "USDT", decimals := 18,
    paymentMethod := .erc20, pricePerQuery := 1000, eip712Name := none, eip712Version := none }

/-- EIP-3009 token with an EIP-712 domain and minimum price 1000. -/
def usdt0Token : Token :=
  { address := "0xaf37e8b6c9ed7f6318979f56fc287d76c30847ff", symbol := "USDT0", decimals := 6,
    paymentMethod := .eip3009, pricePerQuery := 1000,
    eip712Name := some "USDT0", eip712Version := some "1" }

/-- Chain oracle with no data and reverting writes. -/
def emptyChain : Chain :=
  { receiptOf := fun _ => none
    transactionOf := fun _ => none
    allowanceOf := fun _ _ _ => 0
    balanceOf := fun _ _ => 0
    sendPayWithTokenFrom := fun _ _ _ _ _ => .error "execution reverted"
    sendTransferWithAuthorization := fun _ _ _ => .error "execution reverted" }

/-- Chain holding one confirmed native transfer of 999 wei from `0xabc`. -/
def nativeChain999 : Chain :=
  { emptyChain with
    receiptOf := fun h => if h = "0xaaa" then some ⟨some 1⟩ else none
    transactionOf := fun h => if h = "0xaaa" then some ⟨999, "0xabc"⟩ else none }

/-- Native verify body claiming amount 999, below the configured price. -/
def nativeBody999 : NativeBody :=
  { payload := some ⟨2, some ⟨some "0xaaa", some "0xabc", some 999⟩⟩,
    token := cfxToken, treasury := "0xtreasury" }

/-! C1: minimum-price enforcement across schemes. -/

/-- C1 (counterexample): a native proof claiming amount 999 against a
confirmed transaction of value 999 verifies as `valid: true` although 999
is strictly below the configured `pricePerQuery` of 1000 — the native
scheme never compares a supplied claimed amount with the minimum price,
refuting "no scheme's verify can return valid:true for an amount below
the configured minimum". -/
theorem c1_counterexample :
    (verifyNative nativeBody999 nativeChain999).1 = ⟨true, none⟩ ∧
    nativeBody999.payload = some ⟨2, some ⟨some "0xaaa", some "0xabc", some 999⟩⟩ ∧
    999 < nativeBody999.token.pricePerQuery := by
  decide

/-- C1 (amended): the erc20 and eip3009 schemes reject any payload amount
strictly below the configured `pricePerQuery`; the native scheme compares
the transaction value against the claimed amount when one is supplied,
and enforces the configured price only when the claim is absent. -/
theorem c1_min_price :
    (∀ (body : Erc20Body) (chain : Chain) (proof : Erc20Proof) (p : Erc20Payload) (a : Nat),
      body.payload = some proof → proof.payload = some p → p.amount = some a →
      a < body.token.pricePerQuery → (verifyErc20 body chain).1.valid = false) ∧
    (∀ (body : Eip3009Body) (chain : Chain)
      (recover : Eip712Domain → Authorization → String → String) (now : Nat)
      (proof : Eip3009Proof) (p : Eip3009Payload),
      body.payload = some proof → proof.payload = some p →
      p.authorization.value < body.token.pricePerQuery →
      (verifyEip3009 body chain recover now).1.valid = false) ∧
    (∀ (body : NativeBody) (chain : Chain) (proof : NativeProof) (p : NativePayload),
      body.payload = some proof → proof.payload = some p → p.amount = none →
      (verifyNative body chain).1.valid = true →
      ∃ h tx, strVal p.txHash = some h ∧ chain.transactionOf h = some tx ∧
        body.token.pricePerQuery ≤ tx.value) := by
  refine ⟨?_, ?_, ?_⟩
  · intro body chain proof p a h1 h2 h3 hlt
    cases hv : (verifyErc20 body chain).1.valid with
    | false => rfl
    | true =>
      exfalso
      rcases (verifyErc20_valid_iff body chain).mp hv with
        ⟨proof', p', f', a', spender, hb', _, hp', _, ha', _, _, _, _, hpr⟩
      rw [h1] at hb'; injection hb' with e1; subst e1
      rw [h2] at hp'; injection hp' with e2; subst e2
      rw [h3] at ha'; injection ha' with e3
      omega
  · intro body chain recover now proof p h1 h2 hlt
    cases hv : (verifyEip3009 body chain recover now).1.valid with
    | false => rfl
    | true =>
      exfalso
      rcases (verifyEip3009_valid_iff body chain recover now).mp hv with
        ⟨proof', p', hb', _, _, hp', _, _, _, _, _, hpr⟩
      rw [h1] at hb'; injection hb' with e1; subst e1
      rw [h2] at hp'; injection hp' with e2; subst e2
      omega
  · intro body chain proof p h1 h2 h3 hv
    rcases (verifyNative_valid_iff body chain).mp hv with
      ⟨proof', p', h, receipt, tx, hb', _, hp', hh', _, _, ht', hge, _⟩
    rw [h1] at hb'; injection hb' with e1; subst e1
    rw [h2] at hp'; injection hp' with e2; subst e2
    rw [h3] at hge
    exact ⟨h, tx, hh', ht', hge⟩

/-- ERC-20 verify body with amount 999, below the configured price. -/
def erc20Body999 : Erc20Body :=
  { payload := some ⟨2, some ⟨some "0xabc", some 999, none, none⟩⟩,
    token := usdtToken, treasury := "0xtreasury", paymentContract := some "0xpc" }

/-- C1 (witness): the erc20 clause applied to a concrete payload whose
amount 999 is below the configured price 1000. -/
theorem c1_witness : (verifyErc20 erc20Body999 emptyChain).1.valid = false :=
  c1_min_price.1 erc20Body999 emptyChain ⟨2, some ⟨some "0xabc", some 999, none, none⟩⟩
    ⟨some "0xabc", some 999, none, none⟩ 999 rfl rfl rfl (by decide)

/-! C4: the protocol-version gate fires first, before any chain I/O. -/

/-- C4: for a payload with `x402Version ≠ 2`, each of the three verify
handlers returns `{valid:false, reason:"Unsupported x402 version"}` with
an empty RPC trace, i.e. before any chain interaction. -/
theorem c4_version_gate :
    (∀ (body : NativeBody) (chain : Chain) (proof : NativeProof),
      body.payload = some proof → proof.x402Version ≠ 2 →
      verifyNative body chain = (⟨false, some "Unsupported x402 version"⟩, [])) ∧
    (∀ (body : Erc20Body) (chain : Chain) (proof : Erc20Proof),
      body.payload = some proof → proof.x402Version ≠ 2 →
      verifyErc20 body chain = (⟨false, some "Unsupported x402 version"⟩, [])) ∧
    (∀ (body : Eip3009Body) (chain : Chain)
      (recover : Eip712Domain → Authorization → String → String) (now : Nat)
      (proof : Eip3009Proof),
      body.payload = some proof → proof.x402Version ≠ 2 →
      verifyEip3009 body chain recover now = (⟨false, some "Unsupported x402 version"⟩, [])) := by
  refine ⟨?_, ?_, ?_⟩
  · intro body chain proof hb hver
    simp [verifyNative, hb, hver]
  · intro body chain proof hb hver
    simp [verifyErc20, hb, hver]
  · intro body chain recover now proof hb hver
    simp [verifyEip3009, hb, hver]

/-- Native proof carrying `x402Version` 3. -/
def nativeBodyV3 : NativeBody :=
  { payload := some ⟨3, some ⟨some "0xaaa", none, some 1000⟩⟩,
    token := cfxToken, treasury := "0xtreasury" }

/-- C4 (witness): the native clause applied to a version-3 proof. -/
theorem c4_witness :
    verifyNative nativeBodyV3 emptyChain = (⟨false, some "Unsupported x402 version"⟩, []) :=
  c4_version_gate.1 nativeBodyV3 emptyChain ⟨3, some ⟨some "0xaaa", none, some 1000⟩⟩
    rfl (by decide)

/-! C5: ordered hard gates of native verify. -/

/-- C5 (counterexample): when the confirmed transaction's value is below
the required amount, native verify reports the reason string
`"Insufficient CFX amount"`, not `"Insufficient amount"` as the claim
states. -/
theorem c5_counterexample :
    (verifyNative
        { payload := some ⟨2, some ⟨some "0xaaa", none, some 1000⟩⟩,
          token := cfxToken, treasury := "0xtreasury" } nativeChain999).1 =
      ⟨false, some "Insufficient CFX amount"⟩ ∧
    some "Insufficient CFX amount" ≠ some "Insufficient amount" := by
  decide

/-- C5 (amended): native verify applies its checks as ordered hard gates
(first failure wins): absent receipt → `"Transaction not found"`, failed
receipt → `"Transaction failed"`, transaction value below the claimed
amount (or the configured price when no amount is claimed) →
`"Insufficient CFX amount"`, case-insensitive sender mismatch →
`"Sender mismatch"`; if every gate passes, verify returns `valid: true`. -/
theorem c5_native_gates (body : NativeBody) (chain : Chain) (proof : NativeProof)
    (p : NativePayload) (h : String) (hb : body.payload = some proof)
    (hver : proof.x402Version = 2) (hp : proof.payload = some p)
    (hh : strVal p.txHash = some h) :
    (chain.receiptOf h = none →
      (verifyNative body chain).1 = ⟨false, some "Transaction not found"⟩) ∧
    (∀ receipt, chain.receiptOf h = some receipt → receipt.status ≠ some 1 →
      (verifyNative body chain).1 = ⟨false, some "Transaction failed"⟩) ∧
    (∀ receipt tx, chain.receiptOf h = some receipt → receipt.status = some 1 →
      chain.transactionOf h = some tx →
      tx.value < p.amount.getD body.token.pricePerQuery →
      (verifyNative body chain).1 = ⟨false, some "Insufficient CFX amount"⟩) ∧
    (∀ receipt tx f, chain.receiptOf h = some receipt → receipt.status = some 1 →
      chain.transactionOf h = some tx →
      p.amount.getD body.token.pricePerQuery ≤ tx.value →
      strVal p.from_ = some f → toLowerCase tx.from_ ≠ toLowerCase f →
      (verifyNative body chain).1 = ⟨false, some "Sender mismatch"⟩) ∧
    (∀ receipt tx, chain.receiptOf h = some receipt → receipt.status = some 1 →
      chain.transactionOf h = some tx →
      p.amount.getD body.token.pricePerQuery ≤ tx.value →
      (strVal p.from_ = none ∨
        ∃ f, strVal p.from_ = some f ∧ toLowerCase tx.from_ = toLowerCase f) →
      (verifyNative body chain).1 = ⟨true, none⟩) := by
  refine ⟨?_, ?_, ?_, ?_, ?_⟩
  · intro hr
    simp [verifyNative, hb, hver, hp, hh, hr]
  · intro receipt hr hs
    simp [verifyNative, hb, hver, hp, hh, hr, hs]
  · intro receipt tx hr hs ht hval
    simp [verifyNative, hb, hver, hp, hh, hr, hs, ht, hval]
  · intro receipt tx f hr hs ht hval hf hmis
    have hval' : ¬tx.value < p.amount.getD body.token.pricePerQuery := by omega
    simp [verifyNative, hb, hver, hp, hh, hr, hs, ht, hval', hf, hmis]
  · intro receipt tx hr hs ht hval hfrom
    have hval' : ¬tx.value < p.amount.getD body.token.pricePerQuery := by omega
    rcases hfrom with hf | ⟨f, hf, hmatch⟩
    · simp [verifyNative, hb, hver, hp, hh, hr, hs, ht, hval', hf]
    · simp [verifyNative, hb, hver, hp, hh, hr, hs, ht, hval', hf, hmatch]

/-- C5 (witness): the first gate applied concretely — a hash with no
receipt on chain yields `"Transaction not found"`. -/
theorem c5_witness :
    (verifyNative nativeBody999 emptyChain).1 = ⟨false, some "Transaction not found"⟩ :=
  (c5_native_gates nativeBody999 emptyChain ⟨2, some ⟨some "0xaaa", some "0xabc", some 999⟩⟩
    ⟨some "0xaaa", some "0xabc", some 999⟩ "0xaaa" rfl rfl rfl rfl).1 rfl

/-! C6: ERC-20 allowance and balance are independent gates. -/

/-- C6: ERC-20 verify returns `valid: false` whenever the on-chain
allowance of the payment contract is below the amount (regardless of
balance), and whenever the sender's balance is below the amount
(regardless of allowance). -/
theorem c6_erc20_independent (body : Erc20Body) (chain : Chain) (proof : Erc20Proof)
    (p : Erc20Payload) (f : String) (a : Nat) (spender : String)
    (hb : body.payload = some proof) (hp : proof.payload = some p)
    (hf : strVal p.from_ = some f) (ha : p.amount = some a)
    (hpc : strVal body.paymentContract = some spender) :
    (chain.allowanceOf body.token.address f spender < a →
      (verifyErc20 body chain).1.valid = false) ∧
    (chain.balanceOf body.token.address f < a →
      (verifyErc20 body chain).1.valid = false) := by
  constructor
  · intro hlt
    cases hv : (verifyErc20 body chain).1.valid with
    | false => rfl
    | true =>
      exfalso
      rcases (verifyErc20_valid_iff body chain).mp hv with
        ⟨proof', p', f', a', spender', hb', _, hp', hf', ha', _, hpc', hal, _, _⟩
      rw [hb] at hb'; injection hb' with e1; subst e1
      rw [hp] at hp'; injection hp' with e2; subst e2
      rw [hf] at hf'; injection hf' with e3; subst e3
      rw [ha] at ha'; injection ha' with e4; subst e4
      rw [hpc] at hpc'; injection hpc' with e5; subst e5
      omega
  · intro hlt
    cases hv : (verifyErc20 body chain).1.valid with
    | false => rfl
    | true =>
      exfalso
      rcases (verifyErc20_valid_iff body chain).mp hv with
        ⟨proof', p', f', a', spender', hb', _, hp', hf', ha', _, _, _, hbal, _⟩
      rw [hb] at hb'; injection hb' with e1; subst e1
      rw [hp] at hp'; injection hp' with e2; subst e2
      rw [hf] at hf'; injection hf' with e3; subst e3
      rw [ha] at ha'; injection ha' with e4; subst e4
      omega

/-- Chain with generous allowance but zero balance. -/
def allowOnlyChain : Chain :=
  { emptyChain with allowanceOf := fun _ _ _ => 5000, balanceOf := fun _ _ => 0 }

/-- ERC-20 verify body with amount 1000, exactly the configured price. -/
def erc20Body1000 : Erc20Body :=
  { payload := some ⟨2, some ⟨some "0xabc", some 1000, none, none⟩⟩,
    token := usdtToken, treasury := "0xtreasury", paymentContract := some "0xpc" }

/-- C6 (witness): balance 0 < amount 1000 rejects even though allowance
5000 ≥ 1000. -/
theorem c6_witness : (verifyErc20 erc20Body1000 allowOnlyChain).1.valid = false :=
  (c6_erc20_independent erc20Body1000 allowOnlyChain
    ⟨2, some ⟨some "0xabc", some 1000, none, none⟩⟩ ⟨some "0xabc", some 1000, none, none⟩
    "0xabc" 1000 "0xpc" rfl rfl rfl rfl rfl).2 (by decide)

/-! C9: the EIP-3009 time window is inclusive at both ends. -/

/-- C9: with every earlier gate passing, the time-window gate of
`verifyEip3009` rejects with `"Authorization expired or not yet valid"`
exactly when `now` lies outside `[validAfter, validBefore]`; both
boundaries are accepted. -/
theorem c9_window (body : Eip3009Body) (chain : Chain)
    (recover : Eip712Domain → Authorization → String → String) (now : Nat)
    (proof : Eip3009Proof) (p : Eip3009Payload)
    (hb : body.payload = some proof) (hver : proof.x402Version = 2)
    (hnet : proof.network = body.network.caip2) (hp : proof.payload = some p)
    (hsig : toLowerCase (recover (eip712DomainOf body.token body.network) p.authorization
      p.signature) = toLowerCase p.authorization.from_)
    (hdest : toLowerCase p.authorization.to_ = toLowerCase body.treasury)
    (hbal : p.authorization.value ≤ chain.balanceOf body.token.address p.authorization.from_) :
    (verifyEip3009 body chain recover now).1 =
        ⟨false, some "Authorization expired or not yet valid"⟩ ↔
      ¬(p.authorization.validAfter ≤ now ∧ now ≤ p.authorization.validBefore) := by
  have hbal' : ¬chain.balanceOf body.token.address p.authorization.from_ <
      p.authorization.value := by omega
  by_cases hwin : now < p.authorization.validAfter ∨ now > p.authorization.validBefore
  · simp only [verifyEip3009, hb, hver, hnet, hp, hsig, hdest, hbal']
    simp [hwin]
    omega
  · by_cases hpr : p.authorization.value < body.token.pricePerQuery
    · simp only [verifyEip3009, hb, hver, hnet, hp, hsig, hdest, hbal']
      simp [hwin, hpr]
      omega
    · simp only [verifyEip3009, hb, hver, hnet, hp, hsig, hdest, hbal']
      simp [hwin, hpr]
      omega

/-- Authorization valid on the window `[50, 100]` for value 1000. -/
def authFix : Authorization :=
  { from_ := "0xabc", to_ := "0xtreasury", value := 1000,
    validAfter := 50, validBefore := 100, nonce := "0x01" }

/-- EIP-3009 verify body around `authFix`. -/
def eip3009BodyFix : Eip3009Body :=
  { payload := some ⟨2, "eip155:1030", some ⟨"0xsig", authFix⟩⟩,
    token := usdt0Token, network := ⟨1030, "eip155:1030"⟩, treasury := "0xtreasury" }

/-- Chain where every account holds plenty of tokens. -/
def richChain : Chain :=
  { emptyChain with balanceOf := fun _ _ => 1000000 }

/-- Signature-recovery oracle that recovers the claimed sender. -/
def recOk : Eip712Domain → Authorization → String → String :=
  fun _ auth _ => auth.from_

/-- C9 (witness): evaluated exactly at `now = validBefore = 100`, the
window gate does not fire. -/
theorem c9_witness :
    (verifyEip3009 eip3009BodyFix richChain recOk 100).1 ≠
      ⟨false, some "Authorization expired or not yet valid"⟩ :=
  fun heq =>
    (c9_window eip3009BodyFix richChain recOk 100 ⟨2, "eip155:1030", some ⟨"0xsig", authFix⟩⟩
      ⟨"0xsig", authFix⟩ rfl rfl rfl rfl (by decide) (by decide) (by decide)).mp heq
      ⟨by decide, by decide⟩

/-! C2: verify-then-settle discipline of the orchestrator. -/

/-- Posting to a verify endpoint is not a settle call. -/
theorem isSettlePost_verify (m : PaymentMethod) (d : FacReqData) :
    isSettlePost (.post (schemeRoutes m).verify d) = false := by
  cases m <;> rfl

/-- Posting to a settle endpoint is a settle call. -/
theorem isSettlePost_settle (m : PaymentMethod) (d : FacReqData) :
    isSettlePost (.post (schemeRoutes m).settle d) = true := by
  cases m <;> rfl

/-- C2: in every run of `verifyAndSettle`, at most one settle call is
posted; a settle call is posted only when the facilitator's verify answer
was `valid: true`; and the returned result has `success: true` only when
the facilitator's settle answer itself had `success: true`. -/
theorem c2_verify_then_settle (decode : String → Option Json) (fac : Facilitator)
    (header : String) (network : NetworkConfig) (token : Token) (treasury pc : String) :
    ((verifyAndSettle decode fac header network token treasury pc).2.filter
        isSettlePost).length ≤ 1 ∧
    (∀ c ∈ (verifyAndSettle decode fac header network token treasury pc).2,
      isSettlePost c = true →
      ∃ payload vr, decode header = some payload ∧
        fac.verifyResp (schemeRoutes token.paymentMethod).verify
          (facReqData payload network token treasury pc) = some vr ∧ vr.valid = true) ∧
    ((verifyAndSettle decode fac header network token treasury pc).1.success = true →
      ∃ payload sr, decode header = some payload ∧
        fac.settleResp (schemeRoutes token.paymentMethod).settle
          (facReqData payload network token treasury pc) = some sr ∧ sr.success = true) := by
  rcases hd : decode header with _ | payload
  · simp [verifyAndSettle, hd]
  rcases hv : fac.verifyResp (schemeRoutes token.paymentMethod).verify
      (facReqData payload network token treasury pc) with _ | vr
  · simp [verifyAndSettle, hd, hv, isSettlePost_verify]
  rcases hvalid : vr.valid with _ | _
  · simp [verifyAndSettle, hd, hv, hvalid, isSettlePost_verify]
  rcases hs : fac.settleResp (schemeRoutes token.paymentMethod).settle
      (facReqData payload network token treasury pc) with _ | sr
  · simp [verifyAndSettle, hd, hv, hvalid, hs, isSettlePost_verify, isSettlePost_settle]
  rcases hsr : sr.success with _ | _
  · simp [verifyAndSettle, hd, hv, hvalid, hs, hsr, isSettlePost_verify, isSettlePost_settle]
  · simp [verifyAndSettle, hd, hv, hvalid, hs, hsr, isSettlePost_verify, isSettlePost_settle]

/-- Seller-side testnet network configuration. -/
def netFix : NetworkConfig :=
  { chainId := 71, caip2 := "eip155:71", rpcUrl := "https://evmtestnet.confluxrpc.com",
    tokens := fun s =>
      if s = "CFX" then some cfxToken else if s = "USDT" then some usdtToken else none }

/-- Decoder that accepts every header as a fixed JSON payload. -/
def decodeOk : String → Option Json := fun _ => some (.str "proof")

/-- Facilitator oracle answering valid/successful on all endpoints. -/
def facOk : Facilitator :=
  { verifyResp := fun _ _ => some ⟨true, none⟩
    settleResp := fun _ _ => some ⟨true, some "0xhash", some "0xabc", none⟩ }

/-- C2 (witness): a concrete successful run posts exactly one settle call
and its success came from a `success: true` settle answer. -/
theorem c2_witness :
    ((verifyAndSettle decodeOk facOk "hdr" netFix usdtToken "0xtreasury" "0xpc").2.filter
        isSettlePost).length ≤ 1 ∧
    ∃ payload sr, decodeOk "hdr" = some payload ∧
      facOk.settleResp (schemeRoutes usdtToken.paymentMethod).settle
        (facReqData payload netFix usdtToken "0xtreasury" "0xpc") = some sr ∧
      sr.success = true :=
  ⟨(c2_verify_then_settle decodeOk facOk "hdr" netFix usdtToken "0xtreasury" "0xpc").1,
    (c2_verify_then_settle decodeOk facOk "hdr" netFix usdtToken "0xtreasury" "0xpc").2.2 rfl⟩

/-! C3: fate of a non-decodable PAYMENT-SIGNATURE header. -/

/-- Seller environment fixture: testnet with no demo key. -/
def envFix : MwEnv :=
  { network := "testnet", treasury := "0xtreasury",
    paymentContractTestnet := "0xpc", paymentContractMainnet := "0xpcm", demoKey := none }

/-- Network table answering `netFix` for every name. -/
def getNetworkFix : String → NetworkConfig := fun _ => netFix

/-- Decoder on which base64/JSON decoding always fails. -/
def decodeBad : String → Option Json := fun _ => none

/-- Facilitator oracle whose verify answer is a rejection. -/
def facReject : Facilitator :=
  { verifyResp := fun _ _ => some ⟨false, some "Insufficient amount"⟩
    settleResp := fun _ _ => none }

/-- Demo-payment result fixture (never reached in these runs). -/
def demoFailFix : SettlementResult := ⟨false, none, none, some "demo unavailable"⟩

/-- Gated request carrying a payment header and selecting USDT. -/
def reqFix : MwRequest :=
  { url := "http://localhost:3852/data/premium", queryNetwork := none,
    queryToken := some "USDT", queryDemo := none, paymentHeader := some "bm90anNvbg" }

/-- C3 (counterexample): a request whose header fails base64/JSON decoding
receives status 402 with the `{error: 'Payment failed'}` body — the same
status and body form as a genuinely failed payment — not a distinct
400-class rejection. -/
theorem c3_counterexample :
    (x402Run envFix getNetworkFix none decodeBad facOk demoFailFix demoFailFix reqFix).status
        = 402 ∧
    (x402Run envFix getNetworkFix none decodeBad facOk demoFailFix demoFailFix reqFix).body
        = .paymentFailed (some "Invalid PAYMENT-SIGNATURE header") ∧
    (x402Run envFix getNetworkFix none decodeOk facReject demoFailFix demoFailFix reqFix).status
        = 402 ∧
    (x402Run envFix getNetworkFix none decodeOk facReject demoFailFix demoFailFix reqFix).body
        = .paymentFailed (some "Insufficient amount") := by
  refine ⟨rfl, rfl, rfl, rfl⟩

/-- C3 (amended): a gated request whose PAYMENT-SIGNATURE header is not
decodable as base64 JSON is rejected with the same 402 `Payment failed`
response used for a failed payment, distinguished only by the message
`"Invalid PAYMENT-SIGNATURE header"`; no facilitator call is made and
nothing is attached for downstream handlers. -/
theorem c3_decode_failure (env : MwEnv) (getNetwork : String → NetworkConfig)
    (tokenSymbol : Option String) (decode : String → Option Json) (fac : Facilitator)
    (dn de : SettlementResult) (req : MwRequest) (header : String) (token : Token)
    (hh : strVal req.paymentHeader = some header)
    (hd : decode header = none)
    (htok : (getNetwork ((strVal req.queryNetwork).getD env.network)).tokens
      (((strVal tokenSymbol).orElse fun _ => strVal req.queryToken).getD
        (getDefaultToken (getNetwork ((strVal req.queryNetwork).getD env.network)))) =
      some token) :
    x402Run env getNetwork tokenSymbol decode fac dn de req =
      ⟨402, .paymentFailed (some "Invalid PAYMENT-SIGNATURE header"), none, [], none⟩ := by
  simp [x402Run, htok, hh, verifyAndSettle, hd]

/-- C3 (witness): the amended statement applied to the concrete
bad-decoder run. -/
theorem c3_witness :
    x402Run envFix getNetworkFix none decodeBad facOk demoFailFix demoFailFix reqFix =
      ⟨402, .paymentFailed (some "Invalid PAYMENT-SIGNATURE header"), none, [], none⟩ :=
  c3_decode_failure envFix getNetworkFix none decodeBad facOk demoFailFix demoFailFix reqFix
    "bm90anNvbg" usdtToken rfl rfl rfl

/-! C7: the API-key gate of the facilitator dispatcher. -/

/-- Facilitator configuration fixture. -/
def cfgFix : FacConfig := ⟨"secret", 71⟩

/-- CORS preflight request to a scheme endpoint without a valid key. -/
def optionsReq : FacRequest :=
  { method := "OPTIONS", path := "/x402/verify-native", apiKey := none, body := none }

/-- C7 (counterexample): an OPTIONS request to a non-health facilitator
endpoint with no (hence mismatching) X-API-Key is answered 200, not 401 —
the CORS preflight branch precedes the auth gate. -/
theorem c7_counterexample :
    (handleRequest cfgFix emptyChain recOk 0 optionsReq).1.status = 200 ∧
    optionsReq.apiKey ≠ some cfgFix.apiKey ∧
    optionsReq.path ≠ "/x402/health" ∧ (200 : Nat) ≠ 401 := by
  decide

/-- C7 (amended): every non-OPTIONS request other than `GET /x402/health`
whose X-API-Key header does not exactly match the configured key is
answered 401 with no further processing: the body is neither read nor
JSON-parsed and no handler runs (the event trace is empty). -/
theorem c7_auth_gate (cfg : FacConfig) (chain : Chain)
    (recover : Eip712Domain → Authorization → String → String) (now : Nat)
    (req : FacRequest) (hm : req.method ≠ "OPTIONS")
    (hh : ¬(req.path = "/x402/health" ∧ req.method = "GET"))
    (hk : req.apiKey ≠ some cfg.apiKey) :
    handleRequest cfg chain recover now req = (⟨401, .errorMsg "Invalid API key"⟩, []) := by
  simp [handleRequest, hm, hh, hk]

/-- POST with a wrong API key and an unparseable body. -/
def badKeyReq : FacRequest :=
  { method := "POST", path := "/x402/verify-native", apiKey := some "wrong", body := none }

/-- C7 (witness): the amended statement applied to a concrete
wrong-key POST. -/
theorem c7_witness :
    handleRequest cfgFix emptyChain recOk 0 badKeyReq =
      (⟨401, .errorMsg "Invalid API key"⟩, []) :=
  c7_auth_gate cfgFix emptyChain recOk 0 badKeyReq (by decide) (by decide) (by decide)

/-! C10: settle-native is an unvalidated echo. -/

/-- Native body whose `payload` field is present but whose nested
`payload.payload` is absent. -/
def innerlessBody : NativeBody :=
  { payload := some ⟨2, none⟩, token := cfxToken, treasury := "0xtreasury" }

/-- C10 (counterexample): a body whose `payload` field is present but
lacks the nested `payload.payload` object makes `settleNative` throw on
destructuring and return `success: false`, so "success for every request
body whose payload field is present" fails as stated. -/
theorem c10_counterexample :
    innerlessBody.payload.isSome = true ∧
    (settleNative innerlessBody).1.success = false := by
  decide

/-- C10 (amended): for every body whose nested `payload.payload` object is
present, `settleNative` returns `{success:true, transaction: txHash,
payer: from}` echoing the (never-validated, possibly nonexistent) fields
with no chain interaction; and an authenticated `POST /x402/settle-native`
with such a body is answered HTTP 200. -/
theorem c10_settle_native_echo :
    (∀ (body : NativeBody) (proof : NativeProof) (p : NativePayload),
      body.payload = some proof → proof.payload = some p →
      settleNative body = (⟨true, p.txHash, p.from_, none⟩, [])) ∧
    (∀ (cfg : FacConfig) (chain : Chain)
      (recover : Eip712Domain → Authorization → String → String) (now : Nat)
      (req : FacRequest) (b : ParsedBody) (proof : NativeProof) (p : NativePayload),
      req.method = "POST" → req.path = "/x402/settle-native" →
      req.apiKey = some cfg.apiKey → req.body = some b →
      numVal b.networkChainId = none →
      b.asNative.payload = some proof → proof.payload = some p →
      (handleRequest cfg chain recover now req).1 =
        ⟨200, .settleOut ⟨true, p.txHash, p.from_, none⟩⟩) := by
  constructor
  · intro body proof p h1 h2
    simp [settleNative, h1, h2]
  · intro cfg chain recover now req b proof p hmeth hpath hkey hbody hcid hnp hp
    simp [handleRequest, hmeth, hpath, hkey, hbody, hcid, dispatchScheme, settleNative, hnp, hp]

/-- Native settle body echoing a transaction hash that was never verified. -/
def settleBodyEcho : NativeBody :=
  { payload := some ⟨2, some ⟨some "0xneververified", some "0xwho", none⟩⟩,
    token := cfxToken, treasury := "0xtreasury" }

/-- Parsed request body fixture routing to the native handler views. -/
def parsedFix : ParsedBody :=
  { networkChainId := none, asNative := settleBodyEcho,
    asErc20 := erc20Body1000, asEip3009 := eip3009BodyFix }

/-- Authenticated settle-native request with an arbitrary hash. -/
def settleNativeReq : FacRequest :=
  { method := "POST", path := "/x402/settle-native", apiKey := some "secret",
    body := some parsedFix }

/-- C10 (witness): the amended statement applied to a concrete
authenticated settle-native call carrying a never-verified hash. -/
theorem c10_witness :
    (handleRequest cfgFix emptyChain recOk 0 settleNativeReq).1 =
      ⟨200, .settleOut ⟨true, some "0xneververified", some "0xwho", none⟩⟩ :=
  c10_settle_native_echo.2 cfgFix emptyChain recOk 0 settleNativeReq parsedFix
    ⟨2, some ⟨some "0xneververified", some "0xwho", none⟩⟩
    ⟨some "0xneververified", some "0xwho", none⟩ rfl rfl rfl rfl rfl rfl rfl

/-! C8: field set of the 402 PaymentRequirements envelope. -/

/-- C8 (counterexample): the envelope built by `send402` carries a
top-level `error` field in addition to the claimed exact set
`{x402Version, resource, accepts}`, so the "no fields beyond this set"
part of the claim is false. -/
theorem c8_counterexample :
    jsonKeys (send402Envelope "http://localhost:3852/data/premium" netFix cfxToken
        "0xtreasury" "0xpc") = ["x402Version", "error", "resource", "accepts"] ∧
    "error" ∉ (["x402Version", "resource", "accepts"] : List String) := by
  constructor
  · rfl
  · decide

/-- C8 (amended): every 402 challenge envelope has exactly the top-level
fields `{x402Version, error, resource, accepts}` with `x402Version`
constantly 2; `resource` has exactly `{url, description, mimeType}`; the
single `accepts` entry has exactly `{scheme, network, amount, asset,
payTo, maxTimeoutSeconds, extra}` with `scheme` constantly `"exact"`; and
`extra` has `{paymentMethod, symbol, decimals}`, then `name` (and
`version` when configured) only for tokens with an EIP-712 domain name,
then `paymentContract`. -/
theorem c8_envelope_fields (url : String) (network : NetworkConfig) (token : Token)
    (treasury pc : String) (e : Json)
    (he : e = send402Envelope url network token treasury pc) :
    jsonKeys e = ["x402Version", "error", "resource", "accepts"] ∧
    jsonLookup e "x402Version" = some (.num 2) ∧
    (∃ r, jsonLookup e "resource" = some r ∧
      jsonKeys r = ["url", "description", "mimeType"]) ∧
    (∃ entry, jsonLookup e "accepts" = some (.arr [entry]) ∧
      jsonKeys entry =
        ["scheme", "network", "amount", "asset", "payTo", "maxTimeoutSeconds", "extra"] ∧
      jsonLookup entry "scheme" = some (.str "exact") ∧
      ∃ ex, jsonLookup entry "extra" = some ex ∧
        jsonKeys ex = ["paymentMethod", "symbol", "decimals"]
          ++ (match strVal token.eip712Name with
              | some _ => "name" ::
                  (match token.eip712Version with
                   | some _ => ["version"]
                   | none => [])
              | none => [])
          ++ ["paymentContract"]) := by
  subst he
  refine ⟨rfl, rfl, ⟨_, rfl, rfl⟩, ⟨_, rfl, ?_, rfl, ⟨_, rfl, ?_⟩⟩⟩
  · rfl
  · rcases hn : strVal token.eip712Name with _ | n
    · simp [send402Envelope, jsonKeys, hn]
    · rcases hv : token.eip712Version with _ | v
      · simp [send402Envelope, jsonKeys, hn, hv]
      · simp [send402Envelope, jsonKeys, hn, hv]

/-- C8 (witness): keys of a concrete envelope for the EIP-3009 token. -/
theorem c8_witness :
    jsonKeys (send402Envelope "http://localhost:3852/ai" netFix usdt0Token
      "0xtreasury" "0xpc") = ["x402Version", "error", "resource", "accepts"] :=
  (c8_envelope_fields "http://localhost:3852/ai" netFix usdt0Token "0xtreasury" "0xpc"
    _ rfl).1

end X402
